import Mathlib

/-!
Formal model of the examlify PDF-processing pipeline
(backend/app/services/pdf_processing.py) as a shallow embedding, together
with theorems settling the specification claims about it.

The external inference service is modelled by explicit response values
(an oracle); every stage of the pipeline is embedded as a total function
following the Python control flow, with caught exceptions represented by
Except values at exactly the places where the code raises and catches.
-/

namespace Examlify

/-- Position dict of a diagram: x, y coordinates (percentages) as stored in
the two-key dict used by the source. -/
structure Pos where
  x : Int
  y : Int
deriving Repr, DecidableEq

/-- Mirrors the ExamMetadata pydantic model (lines 17-24). -/
structure ExamMetadata where
  title : String
  subject : Option String := none
  topic : Option String := none
  total_questions : Option Int := none
  duration_minutes : Option Int := none
  difficulty_level : Option String := none
deriving Repr, DecidableEq

/-- Mirrors the Diagram pydantic model (lines 26-33). -/
structure Diagram where
  id : String
  base64_image : String
  description : String
  page_number : Int
  position : Pos
  question_number : Option String := none
deriving Repr, DecidableEq

/-- Embedded diagram summary dict attached to a question by _structure_data
(lines 515-521). -/
structure DiagSummary where
  id : String
  description : String
  page_number : Int
  position : Pos
  base64_image : String
deriving Repr, DecidableEq

/-- Mirrors the Question pydantic model (lines 35-47). -/
structure Question where
  id : String
  question_text : String
  options : List String
  correct_answer : Option String := none
  hint : Option String := none
  explanation : Option String := none
  confidence : Option String := none
  diagram_ids : List String := []
  page_number : Int
  question_number : Option String := none
  diagrams : List DiagSummary := []
deriving Repr, DecidableEq

/-- Mirrors the ProcessedExam pydantic model (lines 49-53). -/
structure ProcessedExam where
  metadata : ExamMetadata
  diagrams : List Diagram
  questions : List Question
deriving Repr, DecidableEq

/-- Python truthiness of an optional string: None and the empty string are
falsy, every other string is truthy. -/
def truthy : Option String → Bool
  | none => false
  | some s => !(s == "")

/-- The linking guard on lines 512-513: diagram.question_number and
question.question_number and diagram.question_number == question.question_number. -/
def matchesQuestion (q : Question) (d : Diagram) : Bool :=
  truthy d.question_number && (truthy q.question_number &&
    (d.question_number == q.question_number))

/-- The diagram summary dict built on lines 515-521. -/
def diagSummary (d : Diagram) : DiagSummary :=
  ⟨d.id, d.description, d.page_number, d.position, d.base64_image⟩

/-- Diagrams attached to one question by the inner loop of _structure_data
(lines 510-521), in discovery order. -/
def linkDiagrams (diagrams : List Diagram) (q : Question) : List DiagSummary :=
  (diagrams.filter (matchesQuestion q)).map diagSummary

/-- PDFProcessor._structure_data (lines 490-533): overwrite
metadata.total_questions with the actual question count and attach matching
diagrams to every question. -/
def structure_data (metadata : ExamMetadata) (diagrams : List Diagram)
    (questions : List Question) : ProcessedExam :=
  ⟨{ metadata with total_questions := some (questions.length : Int) },
   diagrams,
   questions.map fun q => { q with diagrams := linkDiagrams diagrams q }⟩

/-- Answer payload parsed from an inference response for one question.
correct_answer, explanation and hint are read with plain dict get (absent and
null both give None); confidence is read with a default, so absent (none) and
null (some none) must be distinguished. -/
structure AnswerData where
  correct_answer : Option String := none
  explanation : Option String := none
  hint : Option String := none
  confidence : Option (Option String) := none
deriving Repr, DecidableEq

/-- Fixed default answer dict built on lines 652-657 and 660-665. -/
def defaultAnswerData : AnswerData :=
  { correct_answer := some "UNSURE",
    explanation := some "Unable to determine correct answer due to processing issues",
    hint := some "Please review the question carefully and consult your study materials",
    confidence := some (some "UNSURE") }

/-- The question-dict update on lines 668-674 and 695-701: overwrite exactly
the four answer fields, reading confidence with default UNSURE. -/
def applyAnswer (q : Question) (d : AnswerData) : Question :=
  { q with
      correct_answer := d.correct_answer,
      explanation := d.explanation,
      hint := d.hint,
      confidence :=
        match d.confidence with
        | none => some "UNSURE"
        | some v => v }

/-- Outcome of the structured function-calling attempt for one question
(lines 620-630 and 682-690): the call raises, or returns without a
function_call, or its arguments fail json.loads, or parse to answer data. -/
inductive StructuredOutcome where
  | callError
  | noFunctionCall
  | badArguments
  | parsed (d : AnswerData)
deriving Repr, DecidableEq

/-- Outcome of the free-text fallback attempt (lines 634-665), consulted only
when the structured call raised: the fallback call itself raises, or the
response contains no parseable JSON object (no regex match, or json.loads
raises), or a JSON object is located and parsed. -/
inductive FallbackOutcome where
  | callError
  | noJson
  | parsedJson (d : AnswerData)
deriving Repr, DecidableEq

/-- Per-question body of the _generate_answers loop (lines 585-709), with the
outer per-question except catching both the bad-arguments path and a failing
fallback call by keeping the question unchanged. -/
def answerQuestion (s : StructuredOutcome) (f : FallbackOutcome)
    (q : Question) : Question :=
  match s with
  | .callError =>
    match f with
    | .callError => q
    | .noJson => applyAnswer q defaultAnswerData
    | .parsedJson d => applyAnswer q d
  | .noFunctionCall => q
  | .badArguments => q
  | .parsed d => applyAnswer q d

/-- The enumerated loop over questions (lines 584-709). -/
def answerLoop (oracle : Nat → StructuredOutcome × FallbackOutcome) :
    Nat → List Question → List Question
  | _, [] => []
  | i, q :: rest =>
    answerQuestion (oracle i).1 (oracle i).2 q :: answerLoop oracle (i + 1) rest

/-- PDFProcessor._generate_answers (lines 539-721), the per-question inference
responses given by an oracle indexed by question position. -/
def generate_answers (oracle : Nat → StructuredOutcome × FallbackOutcome)
    (e : ProcessedExam) : ProcessedExam :=
  { e with questions := answerLoop oracle 0 e.questions }

/-- Per-diagram payload entry of an extract_diagrams function-call response,
read on lines 352-360 (id and description are required keys, position and
question_number are read with dict get). -/
structure DiagramData where
  id : String
  description : String
  position : Option Pos := none
  question_number : Option String := none
deriving Repr, DecidableEq

/-- The Diagram built on lines 353-360: page number is the 1-based page index,
the base64 image stored is the full page image. -/
def mkDiagram (pageIdx : Nat) (image : String) (d : DiagramData) : Diagram :=
  { id := d.id, base64_image := image, description := d.description,
    page_number := (pageIdx : Int) + 1,
    position := d.position.getD ⟨0, 0⟩,
    question_number := d.question_number }

/-- The page loop of _extract_diagrams (lines 308-361): pages are processed in
order and an exception on any page escapes the loop. -/
def diagramLoop (resp : Nat → Except Unit (List DiagramData)) :
    Nat → List String → Except Unit (List Diagram)
  | _, [] => .ok []
  | i, img :: rest =>
    match resp i with
    | .error e => .error e
    | .ok ds =>
      match diagramLoop resp (i + 1) rest with
      | .error e => .error e
      | .ok tail => .ok (ds.map (mkDiagram i img) ++ tail)

/-- PDFProcessor._extract_diagrams (lines 252-367): the try wraps the whole
page loop, so any failure yields an empty list for the entire document. -/
def extract_diagrams (resp : Nat → Except Unit (List DiagramData))
    (images : List String) : List Diagram :=
  match diagramLoop resp 0 images with
  | .ok ds => ds
  | .error _ => []

/-- Per-question payload entry of an extract_questions function-call response,
read on lines 473-481 (id, question_text and options are required keys,
diagram_ids and question_number are read with dict get). -/
structure QuestionData where
  id : String
  question_text : String
  options : List String
  diagram_ids : List String := []
  question_number : Option String := none
deriving Repr, DecidableEq

/-- The Question built on lines 474-481: answer fields and diagrams are left
at their defaults (unset and empty). -/
def mkQuestion (pageIdx : Nat) (qd : QuestionData) : Question :=
  { id := qd.id, question_text := qd.question_text, options := qd.options,
    diagram_ids := qd.diagram_ids, page_number := (pageIdx : Int) + 1,
    question_number := qd.question_number }

/-- The page loop of _extract_questions (lines 427-482): pages are processed
in order and an exception on any page escapes the loop. -/
def questionLoop (resp : Nat → Except Unit (List QuestionData)) :
    Nat → List String → Except Unit (List Question)
  | _, [] => .ok []
  | i, _img :: rest =>
    match resp i with
    | .error e => .error e
    | .ok qs =>
      match questionLoop resp (i + 1) rest with
      | .error e => .error e
      | .ok tail => .ok (qs.map (mkQuestion i) ++ tail)

/-- PDFProcessor._extract_questions (lines 369-488): the try wraps the whole
page loop, so any failure yields an empty list for the entire document. -/
def extract_questions (resp : Nat → Except Unit (List QuestionData))
    (images : List String) : List Question :=
  match questionLoop resp 0 images with
  | .ok qs => qs
  | .error _ => []

/-- Metadata payload of an extract_exam_metadata function-call response; a
missing title makes the pydantic construction on line 245 raise, which the
except on line 247 turns into the default. -/
structure MetadataPayload where
  title : Option String := none
  subject : Option String := none
  topic : Option String := none
  total_questions : Option Int := none
  duration_minutes : Option Int := none
  difficulty_level : Option String := none
deriving Repr, DecidableEq

/-- The fallback metadata returned on line 250. -/
def defaultMetadata : ExamMetadata := { title := "Untitled Exam" }

/-- PDFProcessor._extract_metadata (lines 154-250): a failing call, a raise
during response handling, or a schema violation (missing required title) all
reach the except and return the default metadata. -/
def extract_metadata (resp : Except Unit MetadataPayload) : ExamMetadata :=
  match resp with
  | .error _ => defaultMetadata
  | .ok p =>
    match p.title with
    | none => defaultMetadata
    | some t =>
      { title := t, subject := p.subject, topic := p.topic,
        total_questions := p.total_questions,
        duration_minutes := p.duration_minutes,
        difficulty_level := p.difficulty_level }

/-- All inference-service responses consumed by one pipeline run. -/
structure Oracle where
  metadataResp : Except Unit MetadataPayload
  diagramResp : Nat → Except Unit (List DiagramData)
  questionResp : Nat → Except Unit (List QuestionData)
  answerResp : Nat → StructuredOutcome × FallbackOutcome

/-- PDFProcessor.process_pdf steps 1-5 (lines 74-113); step 0 rasterization is
modelled by the given page-image list. -/
def process_pdf (o : Oracle) (images : List String) : ProcessedExam :=
  generate_answers o.answerResp
    (structure_data (extract_metadata o.metadataResp)
      (extract_diagrams o.diagramResp images)
      (extract_questions o.questionResp images))

/-- Erase exactly the four answer fields of a question; used to state that
answer synthesis touches nothing else. -/
def stripAnswers (q : Question) : Question :=
  { q with correct_answer := none, hint := none, explanation := none,
           confidence := none }

/-- Membership of an optional confidence value in the declared enum, unset
allowed. -/
def confInEnum : Option String → Prop := fun c =>
  c = none ∨ c = some "HIGH" ∨ c = some "MEDIUM" ∨ c = some "LOW" ∨
    c = some "UNSURE"

/-- Sample diagram whose question_number is the empty string. -/
def emptyNumDiagram : Diagram :=
  { id := "d1", base64_image := "img", description := "desc", page_number := 1,
    position := ⟨0, 0⟩, question_number := some "" }

/-- Sample question whose question_number is the empty string. -/
def emptyNumQuestion : Question :=
  { id := "q1", question_text := "t", options := ["A"], page_number := 1,
    question_number := some "" }

/-- Sample metadata used to instantiate linker theorems. -/
def sampleMetadata : ExamMetadata := { title := "T" }

/-- Sample unanswered question used to instantiate answer-stage theorems. -/
def sampleQuestion : Question :=
  { id := "q1", question_text := "t", options := ["A", "B"], page_number := 1,
    question_number := some "1" }

/-- Sample answer payload: schema-conformant, unsure answer with high
confidence. -/
def unsureHighData : AnswerData :=
  { correct_answer := some "UNSURE", explanation := some "e",
    hint := some "h", confidence := some (some "HIGH") }

/-- Sample diagram payload returned for page 1 in concrete instantiations. -/
def sampleDiagramData : DiagramData :=
  { id := "diagram_1_1", description := "circuit", position := some ⟨10, 20⟩,
    question_number := some "1" }

/-- Sample question payload returned for page 1 in concrete instantiations. -/
def sampleQuestionData : QuestionData :=
  { id := "q_1_1", question_text := "t", options := ["A", "B"],
    question_number := some "1" }

/-- Per-page diagram responses where page 1 succeeds and later pages fail. -/
def cexDiagramResp : Nat → Except Unit (List DiagramData) := fun i =>
  if i = 0 then .ok [sampleDiagramData] else .error ()

/-- Per-page question responses where page 1 succeeds and later pages fail. -/
def cexQuestionResp : Nat → Except Unit (List QuestionData) := fun i =>
  if i = 0 then .ok [sampleQuestionData] else .error ()

/-- Oracle with a failing metadata call and everything else succeeding. -/
def metadataFailOracle : Oracle :=
  { metadataResp := .error (),
    diagramResp := fun _ => .ok [sampleDiagramData],
    questionResp := fun _ => .ok [sampleQuestionData],
    answerResp := fun _ => (.noFunctionCall, .noJson) }

/-- Answer oracle where question 0 fails both paths and every later question
gets a parsed structured answer. -/
def doubleFailOracle : Nat → StructuredOutcome × FallbackOutcome := fun i =>
  if i = 0 then (.callError, .callError)
  else (.parsed ⟨some "A", some "because", some "look", some (some "HIGH")⟩, .noJson)

/-- Oracle whose structured answer responses carry the unsure-high payload. -/
def unsureHighOracle : Nat → StructuredOutcome × FallbackOutcome := fun _ =>
  (.parsed unsureHighData, .noJson)

/- Helper lemmas. -/

/-- The code's truthiness guard coincides with: both numbers set, the
diagram's non-empty, and exact string equality. -/
theorem matchesQuestion_eq (q : Question) (d : Diagram) :
    matchesQuestion q d =
      ((d.question_number != none) && ((d.question_number != some "") &&
        (d.question_number == q.question_number))) := by
  cases hd : d.question_number with
  | none => simp [matchesQuestion, truthy, hd]
  | some s =>
    cases hq : q.question_number with
    | none => simp [matchesQuestion, truthy, hd, hq]
    | some t =>
      simp only [matchesQuestion, truthy, hd, hq]
      by_cases hst : s = t
      · subst hst
        by_cases hs : s = ""
        · simp [hs]
        · have h0 : (s == "") = false := by simp [hs]
          simp [h0, hs]
      · have h1 : (s == t) = false := by simp [hst]
        simp [h1]

/-- A matching diagram always has a question_number other than the empty
string, so dropping empty-string diagrams changes no attachment. -/
theorem matchesQuestion_keep (q : Question) (d : Diagram) :
    (matchesQuestion q d && !(d.question_number == some "")) =
      matchesQuestion q d := by
  cases hd : d.question_number with
  | none => simp [matchesQuestion, truthy, hd]
  | some s =>
    by_cases hs : s = "" <;> simp [matchesQuestion, truthy, hd, hs]

/-- Answer synthesis leaves every field outside the four answer fields
untouched, in every per-question outcome. -/
theorem stripAnswers_answerQuestion (s : StructuredOutcome)
    (f : FallbackOutcome) (q : Question) :
    stripAnswers (answerQuestion s f q) = stripAnswers q := by
  cases s <;> cases f <;> rfl

/-- The answer loop is a positional map of the per-question body. -/
theorem answerLoop_get? (oracle : Nat → StructuredOutcome × FallbackOutcome)
    (qs : List Question) (i j : Nat) :
    (answerLoop oracle i qs).get? j =
      (qs.get? j).map fun q =>
        answerQuestion (oracle (i + j)).1 (oracle (i + j)).2 q := by
  induction qs generalizing i j with
  | nil => simp [answerLoop]
  | cons q rest ih =>
    cases j with
    | zero => simp [answerLoop]
    | succ j =>
      have h := ih (i + 1) j
      simp only [answerLoop, List.get?_cons_succ, h]
      have : i + 1 + j = i + (j + 1) := by omega
      rw [this]

/-- The answer loop returns one question per input question. -/
theorem answerLoop_length (oracle : Nat → StructuredOutcome × FallbackOutcome)
    (qs : List Question) (i : Nat) :
    (answerLoop oracle i qs).length = qs.length := by
  induction qs generalizing i with
  | nil => rfl
  | cons q rest ih => simp [answerLoop, ih]

/-- Stripping answers commutes with the answer loop. -/
theorem answerLoop_stripAnswers
    (oracle : Nat → StructuredOutcome × FallbackOutcome) (qs : List Question)
    (i : Nat) :
    (answerLoop oracle i qs).map stripAnswers = qs.map stripAnswers := by
  induction qs generalizing i with
  | nil => rfl
  | cons q rest ih =>
    simp only [answerLoop, List.map_cons, stripAnswers_answerQuestion, ih]

/-- Any page failure makes the diagram page loop fail as a whole. -/
theorem diagramLoop_error (resp : Nat → Except Unit (List DiagramData))
    (imgs : List String) (start k : Nat) (hk : k < imgs.length)
    (he : resp (start + k) = .error ()) :
    diagramLoop resp start imgs = .error () := by
  induction imgs generalizing start k with
  | nil => simp at hk
  | cons img rest ih =>
    cases hr : resp start with
    | error e => simp [diagramLoop, hr]
    | ok ds =>
      cases k with
      | zero =>
        rw [Nat.add_zero] at he
        rw [hr] at he
        cases he
      | succ k =>
        have he' : resp (start + 1 + k) = .error () := by
          have : start + 1 + k = start + (k + 1) := by omega
          rw [this]
          exact he
        have hrec := ih (start + 1) k (by simpa using Nat.lt_of_succ_lt_succ hk) he'
        simp [diagramLoop, hr, hrec]

/-- Any page failure makes the question page loop fail as a whole. -/
theorem questionLoop_error (resp : Nat → Except Unit (List QuestionData))
    (imgs : List String) (start k : Nat) (hk : k < imgs.length)
    (he : resp (start + k) = .error ()) :
    questionLoop resp start imgs = .error () := by
  induction imgs generalizing start k with
  | nil => simp at hk
  | cons img rest ih =>
    cases hr : resp start with
    | error e => simp [questionLoop, hr]
    | ok qs =>
      cases k with
      | zero =>
        rw [Nat.add_zero] at he
        rw [hr] at he
        cases he
      | succ k =>
        have he' : resp (start + 1 + k) = .error () := by
          have : start + 1 + k = start + (k + 1) := by omega
          rw [this]
          exact he
        have hrec := ih (start + 1) k (by simpa using Nat.lt_of_succ_lt_succ hk) he'
        simp [questionLoop, hr, hrec]

/-- Every question produced by the question page loop has its answer fields
unset and no attached diagrams. -/
theorem questionLoop_unanswered (resp : Nat → Except Unit (List QuestionData))
    (imgs : List String) (start : Nat) (qs : List Question)
    (h : questionLoop resp start imgs = .ok qs) :
    ∀ q ∈ qs, q.correct_answer = none ∧ q.hint = none ∧ q.explanation = none ∧
      q.confidence = none ∧ q.diagrams = [] := by
  induction imgs generalizing start qs with
  | nil =>
    simp only [questionLoop] at h
    cases h
    intro q hq
    simp at hq
  | cons img rest ih =>
    simp only [questionLoop] at h
    cases hr : resp start with
    | error e => rw [hr] at h; cases h
    | ok page =>
      rw [hr] at h
      cases hrec : questionLoop resp (start + 1) rest with
      | error e => rw [hrec] at h; cases h
      | ok tail =>
        rw [hrec] at h
        cases h
        intro q hq
        rcases List.mem_append.mp hq with hmem | hmem
        · rcases List.mem_map.mp hmem with ⟨qd, _, rfl⟩
          exact ⟨rfl, rfl, rfl, rfl, rfl⟩
        · exact ih (start + 1) tail hrec q hmem

/-- Every question produced by _extract_questions has its answer fields unset
and no attached diagrams. -/
theorem extract_questions_unanswered
    (resp : Nat → Except Unit (List QuestionData)) (imgs : List String) :
    ∀ q ∈ extract_questions resp imgs, q.correct_answer = none ∧
      q.hint = none ∧ q.explanation = none ∧ q.confidence = none ∧
      q.diagrams = [] := by
  unfold extract_questions
  cases h : questionLoop resp 0 imgs with
  | error e =>
    intro q hq
    simp at hq
  | ok qs => exact questionLoop_unanswered resp imgs 0 qs h

/-- The linker changes no field of a question other than diagrams. -/
theorem structure_data_get? (m : ExamMetadata) (ds : List Diagram)
    (qs : List Question) (i : Nat) :
    (structure_data m ds qs).questions.get? i =
      (qs.get? i).map fun q => { q with diagrams := linkDiagrams ds q } := by
  unfold structure_data
  exact List.get?_map _ _ _

/- Claim theorems. -/

/-- C2: after the Linker/Structurer stage, metadata.total_questions equals the
length of the extracted question list, for every metadata input (in particular
overwriting any model-provided total_questions) and every question list. -/
theorem linker_total_questions (m : ExamMetadata) (ds : List Diagram)
    (qs : List Question) :
    (structure_data m ds qs).metadata.total_questions =
      some (qs.length : Int) := rfl

/-- C5: the Linker/Structurer stage is an embedded pure function and is
idempotent: feeding its own output (metadata, diagram list, question list)
back into it reproduces exactly the same ProcessedExam, questions included. -/
theorem linker_idempotent (m : ExamMetadata) (ds : List Diagram)
    (qs : List Question) :
    structure_data (structure_data m ds qs).metadata
      (structure_data m ds qs).diagrams
      (structure_data m ds qs).questions = structure_data m ds qs := by
  unfold structure_data
  simp only [List.map_map, List.length_map]
  congr 1

/-- C3 counterexample: a diagram and a question whose question_number fields
are both set to the empty string (hence set and exactly string-equal) are not
linked: the code's truthiness test rejects them, so the claimed
"set and string-equal implies attached" direction fails. -/
theorem linker_attach_iff_cex :
    emptyNumDiagram.question_number ≠ none ∧
    emptyNumDiagram.question_number = emptyNumQuestion.question_number ∧
    (structure_data sampleMetadata [emptyNumDiagram]
      [emptyNumQuestion]).questions.map Question.diagrams = [[]] := by
  refine ⟨by decide, rfl, rfl⟩

/-- C3 (amended): the Linker attaches a diagram to a question exactly when
both question_number fields are set to non-empty strings and are exactly
string-equal; attachment is independent of page numbers and the attached list
is the order-preserving filter of the diagram list (discovery order kept). -/
theorem linker_attach_iff (m : ExamMetadata) (ds : List Diagram)
    (qs : List Question) :
    (structure_data m ds qs).questions = qs.map fun q =>
      { q with diagrams :=
          (ds.filter fun d => (d.question_number != none) &&
            ((d.question_number != some "") &&
              (d.question_number == q.question_number))).map diagSummary } := by
  unfold structure_data
  simp only
  congr 1
  funext q
  congr 1
  unfold linkDiagrams
  congr 1
  exact List.filter_congr fun d _ => matchesQuestion_eq q d

/-- C9: questions and diagrams carrying an empty-string question_number never
link: the linker maps each question to itself with its matched diagrams, a
question numbered by the empty string gets none, and removing every
empty-string-numbered diagram changes no question's attachments. -/
theorem linker_empty_string_never_matches (m : ExamMetadata) (ds : List Diagram)
    (qs : List Question) (i : Nat) (q : Question) (hq : qs.get? i = some q) :
    (structure_data m ds qs).questions.get? i =
      some { q with diagrams := linkDiagrams ds q } ∧
    (q.question_number = some "" → linkDiagrams ds q = []) ∧
    linkDiagrams (ds.filter fun d => !(d.question_number == some "")) q =
      linkDiagrams ds q := by
  refine ⟨?_, ?_, ?_⟩
  · rw [structure_data_get?, hq]
    rfl
  · intro h
    unfold linkDiagrams
    have hnil : ds.filter (matchesQuestion q) = [] := by
      apply List.filter_eq_nil_iff.mpr
      intro d _
      simp [matchesQuestion, truthy, h]
    rw [hnil]
    rfl
  · unfold linkDiagrams
    congr 1
    rw [List.filter_filter]
    exact List.filter_congr fun d _ => matchesQuestion_keep q d

/-- C9 witness: instantiation at a one-diagram, one-question document where
both question numbers are the empty string. -/
theorem linker_empty_string_never_matches_witness :
    ([emptyNumQuestion].get? 0 = some emptyNumQuestion) ∧
    ((structure_data sampleMetadata [emptyNumDiagram]
        [emptyNumQuestion]).questions.get? 0 =
      some { emptyNumQuestion with
              diagrams := linkDiagrams [emptyNumDiagram] emptyNumQuestion } ∧
    (emptyNumQuestion.question_number = some "" →
      linkDiagrams [emptyNumDiagram] emptyNumQuestion = []) ∧
    linkDiagrams ([emptyNumDiagram].filter
        fun d => !(d.question_number == some "")) emptyNumQuestion =
      linkDiagrams [emptyNumDiagram] emptyNumQuestion) :=
  ⟨rfl, linker_empty_string_never_matches sampleMetadata [emptyNumDiagram]
    [emptyNumQuestion] 0 emptyNumQuestion rfl⟩

/-- C1 counterexample: with page 1 succeeding (one diagram, one question) and
page 2's inference call failing, both extraction stages return the empty list,
discarding page 1's results, instead of keeping them as the claim states. -/
theorem page_failure_isolation_cex :
    extract_diagrams cexDiagramResp ["p1"] = [mkDiagram 0 "p1" sampleDiagramData] ∧
    extract_diagrams cexDiagramResp ["p1", "p2"] = [] ∧
    extract_questions cexQuestionResp ["p1"] = [mkQuestion 0 sampleQuestionData] ∧
    extract_questions cexQuestionResp ["p1", "p2"] = [] := ⟨rfl, rfl, rfl, rfl⟩

/-- C1 (amended): extraction has stage-level, not per-page, failure isolation:
a failure of the per-page inference call on any page makes the whole diagram
(resp. question) extraction return the empty list — the results of all other
pages are discarded — while the stage itself completes and the pipeline
continues with zero diagrams (resp. questions). -/
theorem page_failure_empties_stage
    (respD : Nat → Except Unit (List DiagramData))
    (respQ : Nat → Except Unit (List QuestionData))
    (images : List String) (i j : Nat)
    (hi : i < images.length) (hdi : respD i = .error ())
    (hj : j < images.length) (hqj : respQ j = .error ()) :
    extract_diagrams respD images = [] ∧
      extract_questions respQ images = [] := by
  constructor
  · unfold extract_diagrams
    rw [diagramLoop_error respD images 0 i hi (by simpa using hdi)]
  · unfold extract_questions
    rw [questionLoop_error respQ images 0 j hj (by simpa using hqj)]

/-- C1 witness: the amended statement instantiated at the two-page document
whose second page fails for both extractors. -/
theorem page_failure_empties_stage_witness :
    (1 < (["p1", "p2"] : List String).length) ∧
    cexDiagramResp 1 = .error () ∧ cexQuestionResp 1 = .error () ∧
    (extract_diagrams cexDiagramResp ["p1", "p2"] = [] ∧
      extract_questions cexQuestionResp ["p1", "p2"] = []) :=
  ⟨by decide, rfl, rfl,
    page_failure_empties_stage cexDiagramResp cexQuestionResp ["p1", "p2"]
      1 1 (by decide) rfl (by decide) rfl⟩

/-- C4 counterexample: a schema-conformant structured response carrying
correct_answer UNSURE and confidence HIGH is copied verbatim into the
question, so correct_answer UNSURE does not force confidence UNSURE. -/
theorem answer_confidence_cex :
    (generate_answers unsureHighOracle
        ⟨defaultMetadata, [], [sampleQuestion]⟩).questions.map
      Question.correct_answer = [some "UNSURE"] ∧
    (generate_answers unsureHighOracle
        ⟨defaultMetadata, [], [sampleQuestion]⟩).questions.map
      Question.confidence = [some "HIGH"] := ⟨rfl, rfl⟩

/-- C4 (amended): each output question's confidence is either unchanged from
its input (unset for linker-produced questions) or copied verbatim from the
accepted response, with UNSURE filled in only when the response omits the
field; hence confidence lies in {HIGH, MEDIUM, LOW, UNSURE} or is unset
whenever every delivered response confidence does — but correct_answer UNSURE
does not force confidence UNSURE. -/
theorem answer_confidence_enum
    (oracle : Nat → StructuredOutcome × FallbackOutcome) (e : ProcessedExam)
    (hin : ∀ q ∈ e.questions, q.confidence = none)
    (hresp : ∀ i d,
      ((oracle i).1 = .parsed d ∨ (oracle i).2 = .parsedJson d) →
      ∀ v, d.confidence = some v → confInEnum v) :
    ∀ q ∈ (generate_answers oracle e).questions, confInEnum q.confidence := by
  suffices h : ∀ (qs : List Question) (start : Nat),
      (∀ q ∈ qs, q.confidence = none) →
      ∀ q ∈ answerLoop oracle start qs, confInEnum q.confidence by
    exact h e.questions 0 hin
  intro qs
  induction qs with
  | nil =>
    intro start _ q hq
    simp [answerLoop] at hq
  | cons q0 rest ih =>
    intro start hqs q hq
    simp only [answerLoop, List.mem_cons] at hq
    rcases hq with rfl | hq
    · have h00 : q0.confidence = none := hqs q0 (List.mem_cons_self _ _)
      cases hs : (oracle start).1 with
      | callError =>
        cases hf : (oracle start).2 with
        | callError =>
          simp [answerQuestion, hs, hf, confInEnum, h00]
        | noJson =>
          simp [answerQuestion, hs, hf, applyAnswer, defaultAnswerData, confInEnum]
        | parsedJson d =>
          cases hc : d.confidence with
          | none => simp [answerQuestion, hs, hf, applyAnswer, hc, confInEnum]
          | some v =>
            have hv := hresp start d (Or.inr hf) v hc
            simpa [answerQuestion, hs, hf, applyAnswer, hc, confInEnum] using hv
      | noFunctionCall => simp [answerQuestion, hs, confInEnum, h00]
      | badArguments => simp [answerQuestion, hs, confInEnum, h00]
      | parsed d =>
        cases hc : d.confidence with
        | none => simp [answerQuestion, hs, applyAnswer, hc, confInEnum]
        | some v =>
          have hv := hresp start d (Or.inl hs) v hc
          simpa [answerQuestion, hs, applyAnswer, hc, confInEnum] using hv
    · exact ih (start + 1) (fun q2 hq2 => hqs q2 (List.mem_cons_of_mem _ hq2)) q hq

/-- C4 witness: the amended statement instantiated at a one-question exam
whose structured responses all carry the unsure-high payload. -/
theorem answer_confidence_enum_witness :
    (∀ q ∈ (⟨defaultMetadata, [], [sampleQuestion]⟩ : ProcessedExam).questions,
      q.confidence = none) ∧
    (∀ q ∈ (generate_answers unsureHighOracle
        ⟨defaultMetadata, [], [sampleQuestion]⟩).questions,
      confInEnum q.confidence) := by
  have hin : ∀ q ∈ (⟨defaultMetadata, [], [sampleQuestion]⟩ :
      ProcessedExam).questions, q.confidence = none := by
    intro q hq
    simp only [List.mem_singleton] at hq
    subst hq
    rfl
  refine ⟨hin, answer_confidence_enum unsureHighOracle _ hin ?_⟩
  intro i d hd v hv
  rcases hd with hd | hd
  · have hd2 : unsureHighData = d := by
      simpa [unsureHighOracle] using hd
    subst hd2
    have hv2 : some "HIGH" = v := by
      simpa [unsureHighData] using hv
    subst hv2
    exact Or.inr (Or.inl rfl)
  · simp [unsureHighOracle] at hd

/-- C6: a failing metadata call yields the placeholder metadata, with the
title Untitled Exam and all other fields unset, and does not abort the
pipeline: a one-page document still produces the overall result, carrying
that title, the extractors' diagrams, and one output question per extracted
question (their count recorded by the linker). -/
theorem metadata_failure_degrades (o : Oracle) (img : String)
    (hm : o.metadataResp = .error ()) :
    extract_metadata o.metadataResp = defaultMetadata ∧
    defaultMetadata =
      { title := "Untitled Exam", subject := none, topic := none,
        total_questions := none, duration_minutes := none,
        difficulty_level := none } ∧
    (process_pdf o [img]).metadata =
      { title := "Untitled Exam", subject := none, topic := none,
        total_questions :=
          some ((extract_questions o.questionResp [img]).length : Int),
        duration_minutes := none, difficulty_level := none } ∧
    (process_pdf o [img]).diagrams = extract_diagrams o.diagramResp [img] ∧
    (process_pdf o [img]).questions.length =
      (extract_questions o.questionResp [img]).length := by
  refine ⟨by rw [hm]; rfl, rfl, ?_, rfl, ?_⟩
  · simp only [process_pdf, generate_answers, structure_data, hm]
    rfl
  · show (answerLoop _ 0 _).length = _
    rw [answerLoop_length]
    simp [structure_data]

/-- C6 witness: instantiation at a one-page document whose metadata call
fails while every other call succeeds. -/
theorem metadata_failure_degrades_witness :
    (metadataFailOracle.metadataResp = .error ()) ∧
    (process_pdf metadataFailOracle ["p1"]).metadata =
      { title := "Untitled Exam", subject := none, topic := none,
        total_questions :=
          some ((extract_questions metadataFailOracle.questionResp ["p1"]).length : Int),
        duration_minutes := none, difficulty_level := none } :=
  ⟨rfl, (metadata_failure_degrades metadataFailOracle "p1" rfl).2.2.1⟩

/-- C7: if both the structured call and the fallback raise for question i,
the output question at position i is exactly the linker's question, its
answer fields are all unset (as extraction and linking leave them), the
per-question failure never escapes the stage (which stays a total function),
and every sibling question is processed by its own responses unaffected. -/
theorem answer_double_failure_isolated (m : ExamMetadata) (ds : List Diagram)
    (resp : Nat → Except Unit (List QuestionData)) (images : List String)
    (oracle : Nat → StructuredOutcome × FallbackOutcome) (i : Nat)
    (hfail : oracle i = (.callError, .callError)) :
    (generate_answers oracle
        (structure_data m ds (extract_questions resp images))).questions.get? i =
      (structure_data m ds (extract_questions resp images)).questions.get? i ∧
    (∀ q, (structure_data m ds
        (extract_questions resp images)).questions.get? i = some q →
      q.correct_answer = none ∧ q.explanation = none ∧ q.hint = none ∧
        q.confidence = none) ∧
    (∀ j, j ≠ i →
      (generate_answers oracle
          (structure_data m ds (extract_questions resp images))).questions.get? j =
        ((structure_data m ds
            (extract_questions resp images)).questions.get? j).map
          fun q => answerQuestion (oracle j).1 (oracle j).2 q) := by
  refine ⟨?_, ?_, ?_⟩
  · show (answerLoop oracle 0 _).get? i = _
    rw [answerLoop_get?]
    simp only [Nat.zero_add, hfail]
    cases (structure_data m ds (extract_questions resp images)).questions.get? i <;> rfl
  · intro q hq
    rw [structure_data_get?] at hq
    cases hx : (extract_questions resp images).get? i with
    | none => rw [hx] at hq; cases hq
    | some q0 =>
      rw [hx] at hq
      have hmem : q0 ∈ extract_questions resp images := List.get?_mem hx
      have h0 := extract_questions_unanswered resp images q0 hmem
      cases hq
      exact ⟨h0.1, h0.2.2.1, h0.2.1, h0.2.2.2.1⟩
  · intro j hj
    show (answerLoop oracle 0 _).get? j = _
    rw [answerLoop_get?]
    simp only [Nat.zero_add]

/-- C7 witness: instantiation at a one-page, one-question document whose
question 0 fails both answer paths. -/
theorem answer_double_failure_isolated_witness :
    (doubleFailOracle 0 = (.callError, .callError)) ∧
    (generate_answers doubleFailOracle
        (structure_data sampleMetadata []
          (extract_questions cexQuestionResp ["p1"]))).questions.get? 0 =
      (structure_data sampleMetadata []
        (extract_questions cexQuestionResp ["p1"])).questions.get? 0 :=
  ⟨rfl, (answer_double_failure_isolated sampleMetadata [] cexQuestionResp
    ["p1"] doubleFailOracle 0 rfl).1⟩

/-- C8: in the fallback path, when the free-text response contains no JSON
object or the located JSON fails to parse, the question is populated with
correct_answer UNSURE, confidence UNSURE, and the fixed generic explanation
and hint text — for every question. -/
theorem fallback_no_json_defaults (q : Question) :
    answerQuestion .callError .noJson q =
      { q with
          correct_answer := some "UNSURE",
          explanation :=
            some "Unable to determine correct answer due to processing issues",
          hint :=
            some "Please review the question carefully and consult your study materials",
          confidence := some "UNSURE" } := rfl

/-- C10: answer synthesis changes at most the four answer fields: the
metadata, the top-level diagram list, and the number, the order, and every
non-answer field of the questions (id, question_text, options, page_number,
question_number, diagram_ids, attached diagrams) are preserved, whatever the
inference service returns. -/
theorem generate_answers_frame
    (oracle : Nat → StructuredOutcome × FallbackOutcome) (e : ProcessedExam) :
    (generate_answers oracle e).metadata = e.metadata ∧
    (generate_answers oracle e).diagrams = e.diagrams ∧
    (generate_answers oracle e).questions.map stripAnswers =
      e.questions.map stripAnswers :=
  ⟨rfl, rfl, answerLoop_stripAnswers oracle e.questions 0⟩

end Examlify
